import Mathlib

/-!
Shallow embedding of the `conditional_context` library
(src/conditional_context/__init__.py).

The library provides `ConditionalContext`, a Python context manager that can
skip the body of a `with` block: when `should_skip()` returns true on entry it
saves the process-wide trace hook (`sys.gettrace()`), installs one if none is
set, and assigns the caller frame's `f_trace` to the bound `breakout` method,
so the first line event of the body raises `ContextSkipError`, which
`__exit__` then suppresses by returning `True`.

Modelling choices:
* `TraceFn` stands for Python trace functions: `.breakoutFn` is the bound
  `self.breakout` method, `.noop` is the no-op function installed by
  `_settrace` when no trace existed, `.user n` is any pre-existing trace
  function.
* `ExcType` stands for Python exception classes, compared by identity as the
  source's `etype == ContextSkipError` does: `.contextSkipError` is the
  `ContextSkipError` class itself, `.skipSub` is a strict subclass of it,
  `.other n` any other exception class.  `Option ExcType` models the `etype`
  argument of `__exit__` (`none` = Python `None`).
* `Sys` carries the process-wide trace hook (`sys.gettrace`/`sys.settrace`)
  and the caller frame's `f_trace` slot.
* A wrapped context is `InnerContext`: its `__enter__` result, its `__exit__`
  return value (`Option Bool`: `none` is Python `None`; `none` and
  `some false` are falsy), and its attribute table.
* `runWith` is the semantics of `with cc [as v]: body`.  The body is aborted
  before its first statement exactly when, after `__enter__`, the caller
  frame's `f_trace` is the breakout function while global tracing is active:
  this is what CPython's line-event tracing does with the armed frame.
* Calls into the wrapped context's `__enter__`/`__exit__` are recorded in a
  `calls` log so that "the inner context is invoked" is provable.
-/

/-- Python trace functions, as installed with `sys.settrace` or on a frame's
`f_trace`. -/
inductive TraceFn
  | noop
  | breakoutFn
  | user (n : Nat)
deriving DecidableEq

/-- Python exception classes.  `contextSkipError` is the class
`ContextSkipError` itself; `skipSub` is a strict subclass of it; `other n` is
any exception class unrelated to `ContextSkipError`. -/
inductive ExcType
  | contextSkipError
  | skipSub
  | other (n : Nat)
deriving DecidableEq

/-- The (non-strict) subclass relation with `ContextSkipError`:
`ContextSkipError` is a subclass of itself, `skipSub` is a strict subclass of
it; other classes are not subclasses of it. -/
def ExcType.subclassOfSkipError : ExcType → Bool
  | .contextSkipError => true
  | .skipSub => true
  | .other _ => false

/-- Module level `breakout(*args, **kwargs)`: its body is
`raise ContextSkipError()`.  Modelled as the exception class it raises. -/
def breakout : ExcType := .contextSkipError

/-- A wrapped context manager, as seen through `type(self.context).__enter__`,
`type(self.context).__exit__` and `type(self.context).__getattribute__`:
the value its `__enter__` returns, the value its `__exit__` returns
(`none` models Python `None`), and its attributes. -/
structure InnerContext where
  enterResult : Nat
  exitResult : Option ExcType → Option Bool
  attrs : String → Nat

/-- The instance state of `ConditionalContext`.  `skip_override` models the
instance attribute written by `replace_should_skip` that shadows the class
method `should_skip` (`none` = not replaced); the source also stores
`self.breakout = breakout`, which is the fixed `breakout` function above.
`orig_trace` is `self._orig_trace`. -/
structure ConditionalContext where
  should_run : Bool
  skip_override : Option (Unit → Bool)
  context : Option InnerContext
  orig_trace : Option TraceFn
  skipped : Bool

/-- The `should_skip()` call on an instance: the replacement predicate when one
was installed, otherwise the class method body `return not self.should_run`. -/
def ConditionalContext.should_skip (cc : ConditionalContext) : Bool :=
  match cc.skip_override with
  | some f => f ()
  | none => !cc.should_run

/-- `replace_should_skip(func)`: if `func` is not `None`, set
`self.should_skip = func`; return `self.should_skip` (which is then exactly
`func`). -/
def ConditionalContext.replace_should_skip (cc : ConditionalContext)
    (func : Option (Unit → Bool)) : ConditionalContext × (Unit → Bool) :=
  match func with
  | none => (cc, fun _ => cc.should_skip)
  | some f => ({ cc with skip_override := some f }, f)

/-- `ConditionalContext.__init__(should_run, should_skip, context)`: stores
`should_run`, runs `replace_should_skip(should_skip)`, stores `context`,
`self.breakout = breakout`, `self._orig_trace = None`, `self.skipped = False`. -/
def ConditionalContext.init (should_run : Bool) (should_skip : Option (Unit → Bool))
    (context : Option InnerContext) : ConditionalContext :=
  (ConditionalContext.replace_should_skip
    { should_run := should_run, skip_override := none, context := context,
      orig_trace := none, skipped := false } should_skip).1

/-- The trace-related process state: the process-wide trace hook and the
caller frame's `f_trace` slot. -/
structure Sys where
  trace : Option TraceFn
  frame_trace : Option TraceFn
deriving DecidableEq

/-- The module helper `_settrace(func)`: calls `sys.settrace(func)`.  (The
swap of `sys.stderr` around the call is transient: stderr is restored before
the helper returns, so it leaves no trace in the state.) -/
def settraceSys (sys : Sys) (func : Option TraceFn) : Sys :=
  { sys with trace := func }

/-- What `__enter__` returns: the `ConditionalContext` instance itself, or the
wrapped context's `__enter__` result. -/
inductive EnterResult
  | selfRef
  | fromInner (v : Nat)
deriving DecidableEq

/-- Log of calls made into the wrapped context. -/
inductive CallEvent
  | innerEnter
  | innerExit (etype : Option ExcType)
deriving DecidableEq

structure EnterOut where
  ctx : ConditionalContext
  sys : Sys
  ret : EnterResult
  calls : List CallEvent

/-- `ConditionalContext.__enter__`: when `should_skip()` is true, save
`sys.gettrace()` into `_orig_trace`, install a no-op trace hook if none was
set, arm the caller frame with `frame.f_trace = self.breakout`, and set
`self.skipped = True`.  Then return `self`, or the wrapped context's
`__enter__` result when wrapping. -/
def ConditionalContext.enter (cc : ConditionalContext) (sys : Sys) : EnterOut :=
  let cc1 : ConditionalContext :=
    if cc.should_skip then { cc with orig_trace := sys.trace, skipped := true }
    else cc
  let sys1 : Sys :=
    if cc.should_skip then
      { (if sys.trace = none then settraceSys sys (some TraceFn.noop) else sys)
        with frame_trace := some TraceFn.breakoutFn }
    else sys
  match cc.context with
  | none => ⟨cc1, sys1, .selfRef, []⟩
  | some inner => ⟨cc1, sys1, .fromInner inner.enterResult, [.innerEnter]⟩

structure ExitOut where
  ctx : ConditionalContext
  sys : Sys
  ret : Option Bool
  calls : List CallEvent

/-- `ConditionalContext.__exit__(etype, value, traceback)`: when
`self.skipped`, restore the saved trace hook and reset `_orig_trace` to
`None`; compute the wrapped context's `__exit__` result (Python `None` when
not wrapping); return `True` when `etype == ContextSkipError`, else the
wrapped result. -/
def ConditionalContext.exit (cc : ConditionalContext) (etype : Option ExcType)
    (sys : Sys) : ExitOut :=
  let cc1 : ConditionalContext :=
    if cc.skipped then { cc with orig_trace := none } else cc
  let sys1 : Sys :=
    if cc.skipped then settraceSys sys cc.orig_trace else sys
  let context_exit : Option Bool :=
    match cc.context with
    | none => none
    | some inner => inner.exitResult etype
  let calls : List CallEvent :=
    match cc.context with
    | none => []
    | some _ => [.innerExit etype]
  if etype = some ExcType.contextSkipError then ⟨cc1, sys1, some true, calls⟩
  else ⟨cc1, sys1, context_exit, calls⟩

/-- Python truthiness of an `__exit__` return value (`None` and `False` are
falsy). -/
def truthy : Option Bool → Bool
  | none => false
  | some b => b

/-- One statement of a `with`-block body: transforms the program state and may
raise an exception. -/
def Stmt (σ : Type) : Type := σ → σ × Option ExcType

/-- Run a list of statements in order; a raised exception stops execution so
later statements never run. -/
def runStmts {σ : Type} : List (Stmt σ) → σ → σ × Option ExcType
  | [], s => (s, none)
  | st :: rest, s =>
    match st s with
    | (s1, none) => runStmts rest s1
    | (s1, some e) => (s1, some e)

/-- The statement `ctx.breakout()`: raises what `breakout` raises. -/
def breakoutStmt {σ : Type} : Stmt σ := fun s => (s, some breakout)

/-- The outcome of a whole `with` statement: final program state, final
instance state, final trace state, the exception visible to the caller (if
any), whether the body ran, and the calls made into a wrapped context. -/
structure WithOut (σ : Type) where
  state : σ
  ctx : ConditionalContext
  sys : Sys
  raised : Option ExcType
  bodyRan : Bool
  calls : List CallEvent

/-- Semantics of `with cc as v: body`.  After `__enter__`, if the caller
frame's `f_trace` is the breakout function while global tracing is active,
CPython raises `ContextSkipError` at the body's first line event, so the body
never runs; otherwise the body runs.  `__exit__` receives the exception type;
a truthy return suppresses the exception. -/
def runWith {σ : Type} (cc : ConditionalContext) (body : EnterResult → Stmt σ)
    (s : σ) (sys : Sys) : WithOut σ :=
  let e1 := cc.enter sys
  if e1.sys.frame_trace = some TraceFn.breakoutFn ∧ e1.sys.trace ≠ none then
    let x := e1.ctx.exit (some ExcType.contextSkipError) e1.sys
    { state := s, ctx := x.ctx, sys := x.sys,
      raised := if truthy x.ret then none else some ExcType.contextSkipError,
      bodyRan := false, calls := e1.calls ++ x.calls }
  else
    let b := body e1.ret s
    let x := e1.ctx.exit b.2 e1.sys
    { state := b.1, ctx := x.ctx, sys := x.sys,
      raised := match b.2 with
        | none => none
        | some e => if truthy x.ret then none else some e,
      bodyRan := true, calls := e1.calls ++ x.calls }

/-- The attribute names `__getattribute__` keeps on the outer instance when
wrapping. -/
def ownedNames : List String :=
  ["_WARNING_IGNORED", "__init__", "__enter__", "__exit__", "should_skip",
   "replace_should_skip", "breakout", "should_run", "context", "_orig_trace",
   "skipped"]

/-- `ConditionalContext.__getattribute__(name)`: `own` models
`super().__getattribute__` on the outer instance.  When not wrapping, or when
the name is in the owned list, look up on the outer instance; otherwise
forward to the wrapped context. -/
def ConditionalContext.getattribute (cc : ConditionalContext)
    (own : String → Nat) (name : String) : Nat :=
  match cc.context with
  | none => own name
  | some inner =>
    if name ∈ ownedNames then own name
    else inner.attrs name

/-- Module level `condition(should_run, should_skip)`. -/
def condition (should_run : Bool) (should_skip : Option (Unit → Bool)) :
    ConditionalContext :=
  ConditionalContext.init should_run should_skip none

/-- Module level `wrap(context, should_run, should_skip)`. -/
def wrap (context : InnerContext) (should_run : Bool)
    (should_skip : Option (Unit → Bool)) : ConditionalContext :=
  ConditionalContext.init should_run should_skip (some context)

/-- A sample wrapped context used by concrete witnesses. -/
def innerA : InnerContext :=
  { enterResult := 42
  , exitResult := fun e => if e = none then none else some false
  , attrs := fun _ => 7 }

/-- The trace state of an ordinary caller: no trace hook, no frame trace. -/
def sys0 : Sys := { trace := none, frame_trace := none }

/-- A sample body: one statement incrementing a counter, raising nothing. -/
def bodyInc : EnterResult → Stmt Nat := fun _ s => (s + 1, none)

/-- A sample body raising exception class `e` after incrementing. -/
def bodyRaise (e : ExcType) : EnterResult → Stmt Nat := fun _ s => (s + 1, some e)

/-- A sample statement incrementing a counter. -/
def stIncr : Stmt Nat := fun s => (s + 1, none)

/-- A sample statement adding 100 to a counter. -/
def stAdd100 : Stmt Nat := fun s => (s + 100, none)

/-! Helper lemmas: projection equations for `enter`, `exit` and `runStmts`. -/

theorem ConditionalContext.enter_ctx (cc : ConditionalContext) (sys : Sys) :
    (cc.enter sys).ctx =
      if cc.should_skip then { cc with orig_trace := sys.trace, skipped := true }
      else cc := by
  cases h : cc.context <;> simp [ConditionalContext.enter, h]

theorem ConditionalContext.enter_sys (cc : ConditionalContext) (sys : Sys) :
    (cc.enter sys).sys =
      if cc.should_skip then
        { (if sys.trace = none then settraceSys sys (some TraceFn.noop) else sys)
          with frame_trace := some TraceFn.breakoutFn }
      else sys := by
  cases h : cc.context <;> simp [ConditionalContext.enter, h]

theorem ConditionalContext.enter_ret (cc : ConditionalContext) (sys : Sys) :
    (cc.enter sys).ret =
      match cc.context with
      | none => EnterResult.selfRef
      | some inner => EnterResult.fromInner inner.enterResult := by
  cases h : cc.context <;> simp [ConditionalContext.enter, h]

theorem ConditionalContext.enter_calls (cc : ConditionalContext) (sys : Sys) :
    (cc.enter sys).calls =
      match cc.context with
      | none => []
      | some _ => [CallEvent.innerEnter] := by
  cases h : cc.context <;> simp [ConditionalContext.enter, h]

theorem ConditionalContext.enter_frame_armed (cc : ConditionalContext) (sys : Sys)
    (h : cc.should_skip = true) :
    (cc.enter sys).sys.frame_trace = some TraceFn.breakoutFn := by
  simp [cc.enter_sys sys, h]

theorem ConditionalContext.enter_trace_ne (cc : ConditionalContext) (sys : Sys)
    (h : cc.should_skip = true) :
    (cc.enter sys).sys.trace ≠ none := by
  rw [cc.enter_sys sys]
  cases htr : sys.trace <;> simp [h, htr, settraceSys]

theorem ConditionalContext.enter_sys_noskip (cc : ConditionalContext) (sys : Sys)
    (h : cc.should_skip = false) :
    (cc.enter sys).sys = sys := by
  simp [cc.enter_sys sys, h]

theorem ConditionalContext.enter_ctx_noskip (cc : ConditionalContext) (sys : Sys)
    (h : cc.should_skip = false) :
    (cc.enter sys).ctx = cc := by
  simp [cc.enter_ctx sys, h]

theorem ConditionalContext.exit_ctx (cc : ConditionalContext)
    (etype : Option ExcType) (sys : Sys) :
    (cc.exit etype sys).ctx =
      if cc.skipped then { cc with orig_trace := none } else cc := by
  cases h : cc.context <;> by_cases he : etype = some ExcType.contextSkipError <;>
    simp [ConditionalContext.exit, h, he]

theorem ConditionalContext.exit_sys (cc : ConditionalContext)
    (etype : Option ExcType) (sys : Sys) :
    (cc.exit etype sys).sys =
      if cc.skipped then settraceSys sys cc.orig_trace else sys := by
  cases h : cc.context <;> by_cases he : etype = some ExcType.contextSkipError <;>
    simp [ConditionalContext.exit, h, he]

theorem ConditionalContext.exit_ret (cc : ConditionalContext)
    (etype : Option ExcType) (sys : Sys) :
    (cc.exit etype sys).ret =
      if etype = some ExcType.contextSkipError then some true
      else
        match cc.context with
        | none => none
        | some inner => inner.exitResult etype := by
  cases h : cc.context <;> by_cases he : etype = some ExcType.contextSkipError <;>
    simp [ConditionalContext.exit, h, he]

theorem ConditionalContext.exit_calls (cc : ConditionalContext)
    (etype : Option ExcType) (sys : Sys) :
    (cc.exit etype sys).calls =
      match cc.context with
      | none => []
      | some _ => [CallEvent.innerExit etype] := by
  cases h : cc.context <;> by_cases he : etype = some ExcType.contextSkipError <;>
    simp [ConditionalContext.exit, h, he]

theorem ConditionalContext.exit_ret_skipErr (cc : ConditionalContext) (sys : Sys) :
    (cc.exit (some ExcType.contextSkipError) sys).ret = some true := by
  simp [cc.exit_ret (some ExcType.contextSkipError) sys]

theorem runStmts_append {σ : Type} (l1 l2 : List (Stmt σ)) (s : σ)
    (h : (runStmts l1 s).2 = none) :
    runStmts (l1 ++ l2) s = runStmts l2 (runStmts l1 s).1 := by
  induction l1 generalizing s with
  | nil => simp [runStmts]
  | cons st rest ih =>
    simp only [List.cons_append, runStmts]
    rcases hst : st s with ⟨s1, e⟩
    cases e with
    | none =>
      simp only [runStmts, hst] at h ⊢
      exact ih s1 h
    | some ex =>
      simp only [runStmts, hst] at h
      exact absurd h (by simp)

theorem runWith_skip {σ : Type} (cc : ConditionalContext)
    (body : EnterResult → Stmt σ) (s : σ) (sys : Sys)
    (h : cc.should_skip = true) :
    runWith cc body s sys =
      { state := s
      , ctx := ((cc.enter sys).ctx.exit (some ExcType.contextSkipError)
          (cc.enter sys).sys).ctx
      , sys := ((cc.enter sys).ctx.exit (some ExcType.contextSkipError)
          (cc.enter sys).sys).sys
      , raised := none
      , bodyRan := false
      , calls := (cc.enter sys).calls ++
          ((cc.enter sys).ctx.exit (some ExcType.contextSkipError)
            (cc.enter sys).sys).calls } := by
  have h1 := cc.enter_frame_armed sys h
  have h2 := cc.enter_trace_ne sys h
  simp only [runWith]
  rw [if_pos ⟨h1, h2⟩]
  simp [ConditionalContext.exit_ret_skipErr, truthy]

theorem runWith_noskip {σ : Type} (cc : ConditionalContext)
    (body : EnterResult → Stmt σ) (s : σ) (sys : Sys)
    (h : cc.should_skip = false)
    (hf : sys.frame_trace ≠ some TraceFn.breakoutFn) :
    runWith cc body s sys =
      { state := (body (cc.enter sys).ret s).1
      , ctx := (cc.exit (body (cc.enter sys).ret s).2 sys).ctx
      , sys := (cc.exit (body (cc.enter sys).ret s).2 sys).sys
      , raised :=
          match (body (cc.enter sys).ret s).2 with
          | none => none
          | some e =>
            if truthy (cc.exit (body (cc.enter sys).ret s).2 sys).ret then none
            else some e
      , bodyRan := true
      , calls := (cc.enter sys).calls ++
          (cc.exit (body (cc.enter sys).ret s).2 sys).calls } := by
  have hs := cc.enter_sys_noskip sys h
  have hc := cc.enter_ctx_noskip sys h
  simp only [runWith, hs, hc]
  rw [if_neg]
  rintro ⟨h1, h2⟩
  exact hf h1

/-- C1: for every `ConditionalContext` used in a `with` statement, when its
`should_skip` predicate evaluates to true on entry, the body does not run, the
post-block program state equals the pre-block state, and no exception is
visible to the caller after the block. -/
theorem skip_prevents_body_and_preserves_state {σ : Type}
    (cc : ConditionalContext) (body : EnterResult → Stmt σ) (s : σ) (sys : Sys)
    (h : cc.should_skip = true) :
    (runWith cc body s sys).bodyRan = false ∧
    (runWith cc body s sys).state = s ∧
    (runWith cc body s sys).raised = none := by
  rw [runWith_skip cc body s sys h]
  exact ⟨rfl, rfl, rfl⟩

/-- C1 witness: a context built with `should_run = False` skips the body, the
counter stays 0 and nothing is raised. -/
theorem skip_prevents_body_and_preserves_state_witness :
    (runWith (ConditionalContext.init false none none) bodyInc 0 sys0).bodyRan
      = false ∧
    (runWith (ConditionalContext.init false none none) bodyInc 0 sys0).state
      = 0 ∧
    (runWith (ConditionalContext.init false none none) bodyInc 0 sys0).raised
      = none :=
  skip_prevents_body_and_preserves_state
    (ConditionalContext.init false none none) bodyInc 0 sys0 rfl

/-- C2: when `should_skip()` is false on entry (from an ordinary caller frame,
whose `f_trace` is not the breakout function), the body runs and produces
exactly the state it would produce alone, and a body that raises nothing
leaves no visible exception; with the default predicate, `should_skip()` is
the negation of `should_run`. -/
theorem no_skip_runs_body_unchanged {σ : Type}
    (cc : ConditionalContext) (body : EnterResult → Stmt σ) (s : σ) (sys : Sys)
    (h : cc.should_skip = false)
    (hf : sys.frame_trace ≠ some TraceFn.breakoutFn) :
    (runWith cc body s sys).bodyRan = true ∧
    (runWith cc body s sys).state = (body (cc.enter sys).ret s).1 ∧
    ((body (cc.enter sys).ret s).2 = none →
      (runWith cc body s sys).raised = none) ∧
    (∀ (r : Bool) (ctxt : Option InnerContext),
      (ConditionalContext.init r none ctxt).should_skip = !r) := by
  rw [runWith_noskip cc body s sys h hf]
  refine ⟨rfl, rfl, fun hb => ?_, fun r ctxt => ?_⟩
  · simp [hb]
  · simp [ConditionalContext.init, ConditionalContext.replace_should_skip,
      ConditionalContext.should_skip]

/-- C2 witness: a context built with `should_run = True` runs the body, the
counter becomes 1 and nothing is raised. -/
theorem no_skip_runs_body_unchanged_witness :
    (runWith (ConditionalContext.init true none none) bodyInc 0 sys0).bodyRan
      = true ∧
    (runWith (ConditionalContext.init true none none) bodyInc 0 sys0).state
      = 1 ∧
    (runWith (ConditionalContext.init true none none) bodyInc 0 sys0).raised
      = none ∧
    (ConditionalContext.init false none none).should_skip = true := by
  have h := no_skip_runs_body_unchanged (ConditionalContext.init true none none)
    bodyInc 0 sys0 rfl (by decide)
  exact ⟨h.1, h.2.1, h.2.2.1 rfl, h.2.2.2 false none⟩

/-- C3: `breakout` raises `ContextSkipError`; `__exit__` returns a truthy
value for that exception type, so the signal is suppressed and never surfaces
to the caller; and the statements after the `breakout()` call in the body
never execute, so the final state is the state reached just before the call. -/
theorem breakout_suppressed_and_stops_body {σ : Type}
    (cc : ConditionalContext) (sys : Sys) (stmts1 stmts2 : List (Stmt σ))
    (s : σ)
    (h : cc.should_skip = false)
    (hf : sys.frame_trace ≠ some TraceFn.breakoutFn)
    (hclean : (runStmts stmts1 s).2 = none) :
    breakout = ExcType.contextSkipError ∧
    truthy (cc.exit (some ExcType.contextSkipError) sys).ret = true ∧
    runStmts (stmts1 ++ breakoutStmt :: stmts2) s
      = ((runStmts stmts1 s).1, some ExcType.contextSkipError) ∧
    (runWith cc (fun _ t => runStmts (stmts1 ++ breakoutStmt :: stmts2) t)
      s sys).raised = none ∧
    (runWith cc (fun _ t => runStmts (stmts1 ++ breakoutStmt :: stmts2) t)
      s sys).state = (runStmts stmts1 s).1 := by
  have hrun : runStmts (stmts1 ++ breakoutStmt :: stmts2) s
      = ((runStmts stmts1 s).1, some ExcType.contextSkipError) := by
    rw [runStmts_append stmts1 (breakoutStmt :: stmts2) s hclean]
    simp [runStmts, breakoutStmt, breakout]
  refine ⟨rfl, ?_, hrun, ?_, ?_⟩
  · rw [cc.exit_ret_skipErr sys]
    rfl
  · rw [runWith_noskip _ _ _ _ h hf]
    simp [hrun, ConditionalContext.exit_ret_skipErr, truthy]
  · rw [runWith_noskip _ _ _ _ h hf]
    simp only [hrun]

/-- C3 witness: a body that increments once, calls `breakout()` and would add
100 afterwards, inside a running context: the state ends at 1 and nothing
surfaces. -/
theorem breakout_suppressed_and_stops_body_witness :
    truthy ((ConditionalContext.init true none none).exit
      (some ExcType.contextSkipError) sys0).ret = true ∧
    (runWith (ConditionalContext.init true none none)
      (fun _ t => runStmts ([stIncr] ++ breakoutStmt :: [stAdd100]) t)
      0 sys0).raised = none ∧
    (runWith (ConditionalContext.init true none none)
      (fun _ t => runStmts ([stIncr] ++ breakoutStmt :: [stAdd100]) t)
      0 sys0).state = 1 := by
  have h := breakout_suppressed_and_stops_body
    (ConditionalContext.init true none none) sys0 [stIncr] [stAdd100] 0
    rfl (by decide) rfl
  exact ⟨h.2.1, h.2.2.2.1, h.2.2.2.2⟩

/-- C4: for every exception type other than `ContextSkipError`: with no
wrapped context, `__exit__` returns `None` (falsy), so the exception
propagates; with a wrapped context, `__enter__` returns exactly the inner
`__enter__` result and `__exit__` returns exactly the inner `__exit__`
result, so a non-skipped body's exception is suppressed or propagated exactly
as the inner exit decides. -/
theorem non_skip_exceptions_deferred (cc : ConditionalContext) (sys : Sys)
    (etype : Option ExcType)
    (h : etype ≠ some ExcType.contextSkipError) :
    (cc.context = none → (cc.exit etype sys).ret = none) ∧
    (∀ inner, cc.context = some inner →
      (cc.exit etype sys).ret = inner.exitResult etype ∧
      (cc.enter sys).ret = EnterResult.fromInner inner.enterResult) ∧
    (∀ (σ : Type) (body : EnterResult → Stmt σ) (s : σ),
      cc.should_skip = false → sys.frame_trace ≠ some TraceFn.breakoutFn →
      (body (cc.enter sys).ret s).2 = etype →
      (runWith cc body s sys).raised =
        (match etype with
         | none => none
         | some e =>
           if truthy (cc.exit etype sys).ret then none else some e)) := by
  refine ⟨fun hc => ?_, fun inner hc => ⟨?_, ?_⟩, fun σ body s h1 h2 h3 => ?_⟩
  · rw [cc.exit_ret etype sys, if_neg h, hc]
  · rw [cc.exit_ret etype sys, if_neg h, hc]
  · rw [cc.enter_ret sys, hc]
  · rw [runWith_noskip cc body s sys h1 h2]
    cases etype with
    | none => simp [h3]
    | some e => simp [h3]

/-- C4 witness: an `other 0` exception raised in a running unwrapped context
propagates to the caller (`__exit__` returned `None`), and in a wrapped
context enter/exit forward to the inner context. -/
theorem non_skip_exceptions_deferred_witness :
    ((ConditionalContext.init true none none).exit (some (ExcType.other 0))
      sys0).ret = none ∧
    ((ConditionalContext.init true none (some innerA)).exit
      (some (ExcType.other 0)) sys0).ret
      = innerA.exitResult (some (ExcType.other 0)) ∧
    ((ConditionalContext.init true none (some innerA)).enter sys0).ret
      = EnterResult.fromInner innerA.enterResult ∧
    (runWith (ConditionalContext.init true none none)
      (bodyRaise (ExcType.other 0)) 0 sys0).raised = some (ExcType.other 0) := by
  have hu := non_skip_exceptions_deferred (ConditionalContext.init true none none)
    sys0 (some (ExcType.other 0)) (by decide)
  have hw := non_skip_exceptions_deferred
    (ConditionalContext.init true none (some innerA)) sys0
    (some (ExcType.other 0)) (by decide)
  refine ⟨hu.1 rfl, (hw.2.1 innerA rfl).1, (hw.2.1 innerA rfl).2, ?_⟩
  have hr := hu.2.2 Nat (bodyRaise (ExcType.other 0)) 0 rfl (by decide) rfl
  rw [hr, hu.1 rfl]
  rfl

/-- C5: attribute access on a wrapping `ConditionalContext` forwards to the
inner context for every name outside the fixed owned set `ownedNames`, and
resolves on the outer object for names in that set; with no wrapped context
every access resolves on the outer object. -/
theorem getattribute_forwarding (cc : ConditionalContext)
    (own : String → Nat) (name : String) :
    (cc.context = none → cc.getattribute own name = own name) ∧
    (∀ inner, cc.context = some inner →
      (name ∈ ownedNames → cc.getattribute own name = own name) ∧
      (name ∉ ownedNames → cc.getattribute own name = inner.attrs name)) := by
  refine ⟨fun hc => ?_, fun inner hc => ⟨fun hm => ?_, fun hm => ?_⟩⟩
  · simp [ConditionalContext.getattribute, hc]
  · simp [ConditionalContext.getattribute, hc, hm]
  · simp [ConditionalContext.getattribute, hc, hm]

/-- C5 witness: on a wrapping context, the owned name "skipped" resolves on
the outer object while "read" forwards to the inner context; unwrapped, both
resolve on the outer object. -/
theorem getattribute_forwarding_witness :
    (ConditionalContext.init true none (some innerA)).getattribute
      (fun _ => 3) "skipped" = 3 ∧
    (ConditionalContext.init true none (some innerA)).getattribute
      (fun _ => 3) "read" = 7 ∧
    (ConditionalContext.init true none none).getattribute
      (fun _ => 3) "read" = 3 := by
  have hw := getattribute_forwarding
    (ConditionalContext.init true none (some innerA)) (fun _ => 3) "skipped"
  have hw2 := getattribute_forwarding
    (ConditionalContext.init true none (some innerA)) (fun _ => 3) "read"
  have hu := getattribute_forwarding
    (ConditionalContext.init true none none) (fun _ => 3) "read"
  exact ⟨(hw.2 innerA rfl).1 (by decide), (hw2.2 innerA rfl).2 (by decide),
    hu.1 rfl⟩

/-- C6: `replace_should_skip(f)` with a non-None `f` installs `f` as the
instance's `should_skip` and returns `f`; subsequent entries use `f` to
decide skipping; no other instance state changes. -/
theorem replace_should_skip_installs (cc : ConditionalContext)
    (f : Unit → Bool) :
    (cc.replace_should_skip (some f)).2 = f ∧
    (cc.replace_should_skip (some f)).1.should_skip = f () ∧
    (cc.replace_should_skip (some f)).1.should_run = cc.should_run ∧
    (cc.replace_should_skip (some f)).1.context = cc.context ∧
    (cc.replace_should_skip (some f)).1.orig_trace = cc.orig_trace ∧
    (cc.replace_should_skip (some f)).1.skipped = cc.skipped ∧
    (∀ sys : Sys, cc.skipped = false →
      (((cc.replace_should_skip (some f)).1.enter sys).ctx.skipped = f ())) := by
  refine ⟨rfl, rfl, rfl, rfl, rfl, rfl, fun sys h0 => ?_⟩
  rw [ConditionalContext.enter_ctx]
  have hss : (cc.replace_should_skip (some f)).1.should_skip = f () := rfl
  rw [hss]
  cases hfv : f () <;> simp [ConditionalContext.replace_should_skip, h0]

/-- C6 witness: replacing the predicate on a `should_run = True` instance
with a constant-true predicate makes the next entry skip. -/
theorem replace_should_skip_installs_witness :
    ((ConditionalContext.init true none none).replace_should_skip
      (some (fun _ => true))).1.should_skip = true ∧
    ((ConditionalContext.init true none none).replace_should_skip
      (some (fun _ => true))).1.should_run = true ∧
    ((((ConditionalContext.init true none none).replace_should_skip
      (some (fun _ => true))).1.enter sys0).ctx.skipped = true) := by
  have h := replace_should_skip_installs (ConditionalContext.init true none none)
    (fun _ => true)
  exact ⟨h.2.1, h.2.2.1, h.2.2.2.2.2.2 sys0 rfl⟩

/-- C7: around every skipped use, `__enter__` saves the process-wide trace
hook into `_orig_trace` before altering it, `__exit__` restores the hook to
its saved value, and `_orig_trace` is reset to `None` by the end of
`__exit__`; the trace hook after the `with` statement equals the one before
it. -/
theorem trace_hook_saved_and_restored {σ : Type} (cc : ConditionalContext)
    (body : EnterResult → Stmt σ) (s : σ) (sys : Sys)
    (h : cc.should_skip = true) :
    (cc.enter sys).ctx.orig_trace = sys.trace ∧
    (runWith cc body s sys).sys.trace = sys.trace ∧
    (runWith cc body s sys).ctx.orig_trace = none := by
  have hctx : (cc.enter sys).ctx
      = { cc with orig_trace := sys.trace, skipped := true } := by
    rw [ConditionalContext.enter_ctx]
    simp [h]
  refine ⟨by rw [hctx], ?_, ?_⟩
  · rw [runWith_skip cc body s sys h]
    simp only [ConditionalContext.exit_sys, hctx]
    simp [settraceSys]
  · rw [runWith_skip cc body s sys h]
    simp only [ConditionalContext.exit_ctx, hctx]
    simp

/-- C7 witness: with a pre-existing trace hook `user 5`, a skipped use saves
it, restores it after the block, and clears `_orig_trace`. -/
theorem trace_hook_saved_and_restored_witness :
    ((ConditionalContext.init false none none).enter
      { trace := some (TraceFn.user 5), frame_trace := none }).ctx.orig_trace
      = some (TraceFn.user 5) ∧
    (runWith (ConditionalContext.init false none none) bodyInc 0
      { trace := some (TraceFn.user 5), frame_trace := none }).sys.trace
      = some (TraceFn.user 5) ∧
    (runWith (ConditionalContext.init false none none) bodyInc 0
      { trace := some (TraceFn.user 5), frame_trace := none }).ctx.orig_trace
      = none :=
  trace_hook_saved_and_restored (ConditionalContext.init false none none)
    bodyInc 0 { trace := some (TraceFn.user 5), frame_trace := none } rfl

/-- C8: `skipped` is initialized to false at construction, and it is set on
entry: after `__enter__` it equals the `should_skip()` decision, and in a
whole `with` run from a fresh instance it is true exactly when the body was
prevented from running. -/
theorem skipped_flag_tracks_skip {σ : Type} (r : Bool)
    (f : Option (Unit → Bool)) (c : Option InnerContext)
    (cc : ConditionalContext) (body : EnterResult → Stmt σ) (s : σ) (sys : Sys)
    (h0 : cc.skipped = false)
    (hf : sys.frame_trace ≠ some TraceFn.breakoutFn) :
    (ConditionalContext.init r f c).skipped = false ∧
    (cc.enter sys).ctx.skipped = cc.should_skip ∧
    ((runWith cc body s sys).ctx.skipped = true ↔
      (runWith cc body s sys).bodyRan = false) := by
  refine ⟨by cases f <;> rfl, ?_, ?_⟩
  · rw [ConditionalContext.enter_ctx]
    cases hss : cc.should_skip <;> simp [h0]
  · cases hss : cc.should_skip
    · rw [runWith_noskip cc body s sys hss hf]
      simp only [ConditionalContext.exit_ctx]
      simp [h0]
    · rw [runWith_skip cc body s sys hss]
      simp only [ConditionalContext.exit_ctx, ConditionalContext.enter_ctx]
      simp [hss]

/-- C8 witness: a fresh instance has `skipped = false`; after a skipping
entry `skipped` is true; and in a skipped run `skipped` matches the body not
having run. -/
theorem skipped_flag_tracks_skip_witness :
    (ConditionalContext.init true none none).skipped = false ∧
    ((ConditionalContext.init false none none).enter sys0).ctx.skipped = true ∧
    ((runWith (ConditionalContext.init false none none) bodyInc 0 sys0).ctx.skipped
        = true ↔
      (runWith (ConditionalContext.init false none none) bodyInc 0 sys0).bodyRan
        = false) := by
  have h := skipped_flag_tracks_skip true none none
    (ConditionalContext.init false none none) bodyInc 0 sys0 rfl (by decide)
  exact ⟨h.1, h.2.1.trans rfl, h.2.2⟩

/-- C9: with a wrapped context, the inner `__enter__` and `__exit__` are both
invoked even when the body is skipped: `__enter__` arms the skip and returns
the inner enter result, `__exit__` calls the inner exit unconditionally, and
for the internal skip signal `__exit__` returns `True` regardless of the
inner exit's result. -/
theorem wrapped_context_always_invoked (cc : ConditionalContext)
    (inner : InnerContext) (sys : Sys) (etype : Option ExcType)
    (hc : cc.context = some inner) :
    (cc.enter sys).calls = [CallEvent.innerEnter] ∧
    (cc.enter sys).ret = EnterResult.fromInner inner.enterResult ∧
    (cc.should_skip = true → (cc.enter sys).ctx.skipped = true) ∧
    (cc.exit etype sys).calls = [CallEvent.innerExit etype] ∧
    (cc.exit (some ExcType.contextSkipError) sys).ret = some true := by
  refine ⟨?_, ?_, fun h => ?_, ?_, cc.exit_ret_skipErr sys⟩
  · rw [cc.enter_calls sys, hc]
  · rw [cc.enter_ret sys, hc]
  · rw [ConditionalContext.enter_ctx]
    simp [h]
  · rw [cc.exit_calls etype sys, hc]

/-- C9 witness: a skipping context wrapping `innerA` still enters and exits
the inner context, returns its enter result 42, and suppresses the skip
signal. -/
theorem wrapped_context_always_invoked_witness :
    ((ConditionalContext.init false none (some innerA)).enter sys0).calls
      = [CallEvent.innerEnter] ∧
    ((ConditionalContext.init false none (some innerA)).enter sys0).ret
      = EnterResult.fromInner 42 ∧
    ((ConditionalContext.init false none (some innerA)).enter sys0).ctx.skipped
      = true ∧
    ((ConditionalContext.init false none (some innerA)).exit
      (some (ExcType.other 3)) sys0).calls
      = [CallEvent.innerExit (some (ExcType.other 3))] ∧
    ((ConditionalContext.init false none (some innerA)).exit
      (some ExcType.contextSkipError) sys0).ret = some true := by
  have h := wrapped_context_always_invoked
    (ConditionalContext.init false none (some innerA)) innerA sys0
    (some (ExcType.other 3)) rfl
  exact ⟨h.1, h.2.1, h.2.2.1 rfl, h.2.2.2.1, h.2.2.2.2⟩

/-- C10: `__exit__` suppresses only the exact class `ContextSkipError`: for a
strict subclass of it, the suppression branch is not taken and `__exit__`
returns the wrapped context's exit result, which is `None` when unwrapped, so
the exception propagates. -/
theorem exit_suppression_is_exact_type (cc : ConditionalContext) (sys : Sys) :
    ExcType.subclassOfSkipError ExcType.skipSub = true ∧
    ExcType.skipSub ≠ ExcType.contextSkipError ∧
    (cc.exit (some ExcType.skipSub) sys).ret =
      (match cc.context with
       | none => none
       | some inner => inner.exitResult (some ExcType.skipSub)) ∧
    (cc.context = none →
      (cc.exit (some ExcType.skipSub) sys).ret = none ∧
      truthy (cc.exit (some ExcType.skipSub) sys).ret = false) := by
  have hret : (cc.exit (some ExcType.skipSub) sys).ret =
      (match cc.context with
       | none => none
       | some inner => inner.exitResult (some ExcType.skipSub)) := by
    rw [cc.exit_ret (some ExcType.skipSub) sys, if_neg (by decide)]
  refine ⟨rfl, by decide, hret, fun hc => ?_⟩
  rw [hret, hc]
  exact ⟨rfl, rfl⟩

/-- C10 witness: a strict subclass of `ContextSkipError` raised in an
unwrapped context is not suppressed (`__exit__` returns `None`, falsy), and
in a wrapped context the inner exit result (`some false`) comes back. -/
theorem exit_suppression_is_exact_type_witness :
    ((ConditionalContext.init true none none).exit (some ExcType.skipSub)
      sys0).ret = none ∧
    truthy ((ConditionalContext.init true none none).exit
      (some ExcType.skipSub) sys0).ret = false ∧
    ((ConditionalContext.init true none (some innerA)).exit
      (some ExcType.skipSub) sys0).ret = some false := by
  have hu := exit_suppression_is_exact_type
    (ConditionalContext.init true none none) sys0
  have hw := exit_suppression_is_exact_type
    (ConditionalContext.init true none (some innerA)) sys0
  exact ⟨(hu.2.2.2 rfl).1, (hu.2.2.2 rfl).2, hw.2.2.1.trans rfl⟩
